import Mathlib

/-!
Verification of the typed argument cell of `bevy_reflect::func::args::arg`
(`src/crates/bevy_reflect/src/func/args/arg.rs`).

The cell pairs a positional index with a tagged `ArgValue` (owned payload,
immutable borrow, or mutable borrow of a type-erased reflected value) and
offers an extraction protocol (`take_owned`, `take_ref`, `take_mut`, generic
`take`, `take_value`) with a two-kind error taxonomy (`InvalidOwnership`,
`UnexpectedType`).

Shallow embedding: a type-erased reflected value is modelled as a record
carrying its runtime type identity (the `TypeId` used by downcasts) together
with the type path string reported by `reflect_type_path`, plus an abstract
payload. Rust references are modelled by the value they point at; fallible
downcasts become `Option`/`Except` results exactly mirroring the source's
`try_take` / `try_downcast_ref` / `try_downcast_mut`.
-/

/-- A concrete static type, as the extraction protocol sees it: its runtime
type identity (`TypeId`) and its `type_path` string. -/
structure Ty where
  id : Nat
  path : String
deriving DecidableEq, Repr

/-- A type-erased reflected value (`dyn PartialReflect`): its runtime type
and an abstract payload standing for the value's content. -/
structure RVal where
  ty : Ty
  data : Nat
deriving DecidableEq, Repr

/-- `reflect_type_path`: the type path reported by the stored value. -/
def RVal.reflect_type_path (v : RVal) : String :=
  v.ty.path

/-- `Box::<dyn PartialReflect>::try_take::<T>()`: succeeds, yielding the
value, exactly when the runtime type identity matches `T`; otherwise hands
the box back in the error. -/
def RVal.try_take (v : RVal) (t : Ty) : Except RVal RVal :=
  if v.ty.id = t.id then .ok v else .error v

/-- `try_downcast_ref::<T>()`: some reference to the value iff the runtime
type identity matches `T`. -/
def RVal.try_downcast_ref (v : RVal) (t : Ty) : Option RVal :=
  if v.ty.id = t.id then some v else none

/-- `try_downcast_mut::<T>()`: some mutable reference iff the runtime type
identity matches `T`. -/
def RVal.try_downcast_mut (v : RVal) (t : Ty) : Option RVal :=
  if v.ty.id = t.id then some v else none

/-- The `Ownership` descriptor: exactly three variants, no payload. -/
inductive Ownership where
  | Owned
  | Ref
  | Mut
deriving DecidableEq, Repr

/-- `ArgValue<'a>`: tagged union of an owned boxed value, an immutable
borrow, and a mutable borrow of a type-erased value. -/
inductive ArgValue where
  | Owned (arg : RVal)
  | Ref (arg : RVal)
  | Mut (arg : RVal)
deriving DecidableEq, Repr

/-- The ownership category an `ArgValue` variant stores (derivable from the
variant, never stored redundantly). -/
def ArgValue.ownership : ArgValue → Ownership
  | .Owned _ => .Owned
  | .Ref _ => .Ref
  | .Mut _ => .Mut

/-- `impl Deref for ArgValue`: the uniform read-only view of the underlying
type-erased value, regardless of category. -/
def ArgValue.deref : ArgValue → RVal
  | .Owned arg => arg
  | .Ref arg => arg
  | .Mut arg => arg

/-- `ArgError`: the two-kind error taxonomy of the extraction protocol. -/
inductive ArgError where
  | UnexpectedType (index : Nat) (expected received : String)
  | InvalidOwnership (index : Nat) (expected received : Ownership)
deriving DecidableEq, Repr

/-- The `index` field every `ArgError` variant carries. -/
def ArgError.index : ArgError → Nat
  | .UnexpectedType i _ _ => i
  | .InvalidOwnership i _ _ => i

/-- `Arg<'a>`: an argument cell pairing a positional index with its value. -/
structure Arg where
  index : Nat
  value : ArgValue
deriving DecidableEq, Repr

/-- `Arg::new`. -/
def Arg.new (index : Nat) (value : ArgValue) : Arg :=
  ⟨index, value⟩

/-- `Arg::set_index` (crate-restricted index reassignment). -/
def Arg.set_index (a : Arg) (index : Nat) : Arg :=
  { a with index := index }

/-- `Arg::take_value`: consume the cell, return the raw `ArgValue`. -/
def Arg.take_value (a : Arg) : ArgValue :=
  a.value

/-- `Arg::take_owned::<T>`. -/
def Arg.take_owned (a : Arg) (t : Ty) : Except ArgError RVal :=
  match a.value with
  | .Owned arg =>
      (arg.try_take t).mapError (fun arg =>
        ArgError.UnexpectedType a.index t.path arg.reflect_type_path)
  | .Ref _ => .error (.InvalidOwnership a.index .Owned .Ref)
  | .Mut _ => .error (.InvalidOwnership a.index .Owned .Mut)

/-- `Arg::take_ref::<T>`. -/
def Arg.take_ref (a : Arg) (t : Ty) : Except ArgError RVal :=
  match a.value with
  | .Owned _ => .error (.InvalidOwnership a.index .Ref .Owned)
  | .Ref arg =>
      match arg.try_downcast_ref t with
      | some r => .ok r
      | none => .error (.UnexpectedType a.index t.path arg.reflect_type_path)
  | .Mut _ => .error (.InvalidOwnership a.index .Ref .Mut)

/-- `Arg::take_mut::<T>` (the source computes the received type path before
the downcast; the value observed is the same). -/
def Arg.take_mut (a : Arg) (t : Ty) : Except ArgError RVal :=
  match a.value with
  | .Owned _ => .error (.InvalidOwnership a.index .Mut .Owned)
  | .Ref _ => .error (.InvalidOwnership a.index .Mut .Ref)
  | .Mut arg =>
      let received := arg.reflect_type_path
      match arg.try_downcast_mut t with
      | some r => .ok r
      | none => .error (.UnexpectedType a.index t.path received)

/-- Modelled from the spec: the `FromArg` conversion policy behind the
generic `Arg::take::<T>` (the `FromArg` impls live outside `src/`). The
requested concrete type determines the expected ownership category and the
extracted form: `T` requests an owned extraction, `&T` an immutable borrow,
`&mut T` a mutable borrow. -/
inductive ReqType where
  | Owned (t : Ty)
  | Ref (t : Ty)
  | Mut (t : Ty)
deriving DecidableEq, Repr

/-- Modelled from the spec: `FromArg::from_arg` delegates, per requested
shape, to the matching specific take. -/
def from_arg (r : ReqType) (a : Arg) : Except ArgError RVal :=
  match r with
  | .Owned t => a.take_owned t
  | .Ref t => a.take_ref t
  | .Mut t => a.take_mut t

/-- `Arg::take::<T>`: `T::from_arg(self)`. -/
def Arg.take (a : Arg) (r : ReqType) : Except ArgError RVal :=
  from_arg r a

/-- Claim C1: constructing a cell holding an Owned value `v` whose runtime
type is `T` and calling `take_owned::<T>()` returns `Ok(v)` with `v`
unchanged — an exact round-trip. -/
theorem take_owned_roundtrip (i : Nat) (v : RVal) (t : Ty) (h : v.ty = t) :
    (Arg.new i (ArgValue.Owned v)).take_owned t = .ok v := by
  simp [Arg.new, Arg.take_owned, RVal.try_take, h, Except.mapError]

/-- Witness for C1: the spec's concrete scenario, an Owned cell holding
`1u32` at index 0 round-trips through `take_owned::<u32>()`. -/
theorem take_owned_roundtrip_witness :
    (Arg.new 0 (ArgValue.Owned ⟨⟨7, "u32"⟩, 1⟩)).take_owned ⟨7, "u32"⟩ =
      .ok ⟨⟨7, "u32"⟩, 1⟩ :=
  take_owned_roundtrip 0 ⟨⟨7, "u32"⟩, 1⟩ ⟨7, "u32"⟩ rfl

/-- Claim C2: each specific take on a cell whose stored ownership category
differs from the requested one returns an ownership-mismatch error carrying
expected = the requested category and received = the stored category, never
a type mismatch — even when the stored concrete type matches; the ownership
check precedes the type check. -/
theorem ownership_checked_first (t : Ty) (a : Arg) :
    (a.value.ownership ≠ .Owned →
      a.take_owned t =
        .error (.InvalidOwnership a.index .Owned a.value.ownership)) ∧
    (a.value.ownership ≠ .Ref →
      a.take_ref t =
        .error (.InvalidOwnership a.index .Ref a.value.ownership)) ∧
    (a.value.ownership ≠ .Mut →
      a.take_mut t =
        .error (.InvalidOwnership a.index .Mut a.value.ownership)) := by
  obtain ⟨i, v⟩ := a
  cases v <;>
    simp [Arg.take_owned, Arg.take_ref, Arg.take_mut, ArgValue.ownership]

/-- Witness for C2: the spec's scenario 2 — a Ref cell holding a borrow of
`2u32` at index 1, where the concrete type would match, still fails
`take_owned::<u32>()` with expected=Owned, received=Ref, index=1. -/
theorem ownership_checked_first_witness :
    (Arg.new 1 (ArgValue.Ref ⟨⟨7, "u32"⟩, 2⟩)).take_owned ⟨7, "u32"⟩ =
      .error (.InvalidOwnership 1 .Owned .Ref) :=
  (ownership_checked_first ⟨7, "u32"⟩
      (Arg.new 1 (ArgValue.Ref ⟨⟨7, "u32"⟩, 2⟩))).1 (by decide)

/-- Claim C3: `take_ref::<T>()` succeeds, returning the borrowed value,
exactly when the cell holds Ref of concrete type `T`; `take_mut::<T>()`
succeeds exactly when it holds Mut of concrete type `T`; every other case
is an error of the two-kind taxonomy with expected=Ref (resp. expected=Mut)
for ownership mismatches and the type-name pair for downcast failures. -/
theorem take_ref_take_mut_spec (t : Ty) (a : Arg) :
    (∀ v, a.value = .Ref v → v.ty.id = t.id → a.take_ref t = .ok v) ∧
    (∀ v, a.value = .Ref v → v.ty.id ≠ t.id →
      a.take_ref t = .error (.UnexpectedType a.index t.path v.ty.path)) ∧
    (a.value.ownership ≠ .Ref →
      a.take_ref t =
        .error (.InvalidOwnership a.index .Ref a.value.ownership)) ∧
    (∀ v, a.value = .Mut v → v.ty.id = t.id → a.take_mut t = .ok v) ∧
    (∀ v, a.value = .Mut v → v.ty.id ≠ t.id →
      a.take_mut t = .error (.UnexpectedType a.index t.path v.ty.path)) ∧
    (a.value.ownership ≠ .Mut →
      a.take_mut t =
        .error (.InvalidOwnership a.index .Mut a.value.ownership)) := by
  obtain ⟨i, v⟩ := a
  cases v <;>
    simp_all [Arg.take_ref, Arg.take_mut, ArgValue.ownership,
      RVal.try_downcast_ref, RVal.try_downcast_mut, RVal.reflect_type_path]

/-- Witness for C3: a Ref cell holding `2u32` at index 1 succeeds under
`take_ref::<u32>()`, returning the stored borrow. -/
theorem take_ref_take_mut_spec_witness :
    (Arg.new 1 (ArgValue.Ref ⟨⟨7, "u32"⟩, 2⟩)).take_ref ⟨7, "u32"⟩ =
      .ok ⟨⟨7, "u32"⟩, 2⟩ :=
  (take_ref_take_mut_spec ⟨7, "u32"⟩
      (Arg.new 1 (ArgValue.Ref ⟨⟨7, "u32"⟩, 2⟩))).1 ⟨⟨7, "u32"⟩, 2⟩ rfl rfl

/-- Claim C4: when the ownership category matched but the downcast to `T`
failed, the type-mismatch error carries expected = `T`'s type path and
received = the actual runtime type path of the stored value, for each of
the three specific takes. -/
theorem unexpected_type_reports_runtime_name (t : Ty) (a : Arg) :
    (∀ v, a.value = .Owned v → v.ty.id ≠ t.id →
      a.take_owned t =
        .error (.UnexpectedType a.index t.path v.reflect_type_path)) ∧
    (∀ v, a.value = .Ref v → v.ty.id ≠ t.id →
      a.take_ref t =
        .error (.UnexpectedType a.index t.path v.reflect_type_path)) ∧
    (∀ v, a.value = .Mut v → v.ty.id ≠ t.id →
      a.take_mut t =
        .error (.UnexpectedType a.index t.path v.reflect_type_path)) := by
  obtain ⟨i, v⟩ := a
  cases v <;>
    simp_all [Arg.take_owned, Arg.take_ref, Arg.take_mut, RVal.try_take,
      RVal.try_downcast_ref, RVal.try_downcast_mut, Except.mapError,
      RVal.reflect_type_path]

/-- Witness for C4: the spec's scenario 4 — an Owned cell holding a `bool`
at index 0 fails `take_owned::<u32>()` with expected="u32",
received="bool", index=0. -/
theorem unexpected_type_reports_runtime_name_witness :
    (Arg.new 0 (ArgValue.Owned ⟨⟨3, "bool"⟩, 1⟩)).take_owned ⟨7, "u32"⟩ =
      .error (.UnexpectedType 0 "u32" "bool") :=
  (unexpected_type_reports_runtime_name ⟨7, "u32"⟩
      (Arg.new 0 (ArgValue.Owned ⟨⟨3, "bool"⟩, 1⟩))).1
    ⟨⟨3, "bool"⟩, 1⟩ rfl (by decide)

/-- Any error produced by a specific take carries the cell's index field. -/
theorem take_error_index_aux (t : Ty) (a : Arg) (e : ArgError)
    (h : a.take_owned t = .error e ∨ a.take_ref t = .error e ∨
      a.take_mut t = .error e) :
    e.index = a.index := by
  obtain ⟨j, w⟩ := a
  cases w <;> cases e <;>
    rcases h with h | h | h <;>
    simp_all [Arg.take_owned, Arg.take_ref, Arg.take_mut,
      RVal.try_take, RVal.try_downcast_ref, RVal.try_downcast_mut,
      Except.mapError, ArgError.index] <;>
    (try split at h) <;> simp_all

/-- Claim C5: every failing extraction returns an error carrying the index
the cell held at the moment of the call — the one given at construction or
by the most recent `set_index` reassignment. -/
theorem error_carries_current_index (t : Ty) (a : Arg) :
    (∀ e, a.take_owned t = .error e → e.index = a.index) ∧
    (∀ e, a.take_ref t = .error e → e.index = a.index) ∧
    (∀ e, a.take_mut t = .error e → e.index = a.index) ∧
    (∀ i e, (a.set_index i).take_owned t = .error e → e.index = i) ∧
    (∀ i e, (a.set_index i).take_ref t = .error e → e.index = i) ∧
    (∀ i e, (a.set_index i).take_mut t = .error e → e.index = i) :=
  ⟨fun e he => take_error_index_aux t a e (Or.inl he),
    fun e he => take_error_index_aux t a e (Or.inr (Or.inl he)),
    fun e he => take_error_index_aux t a e (Or.inr (Or.inr he)),
    fun i e he => take_error_index_aux t (a.set_index i) e (Or.inl he),
    fun i e he =>
      take_error_index_aux t (a.set_index i) e (Or.inr (Or.inl he)),
    fun i e he =>
      take_error_index_aux t (a.set_index i) e (Or.inr (Or.inr he))⟩

/-- Witness for C5: after reassigning an Owned `u32` cell from index 0 to
index 5, a failed `take_ref::<u32>()` reports index 5. -/
theorem error_carries_current_index_witness :
    ((Arg.new 0 (ArgValue.Owned ⟨⟨7, "u32"⟩, 1⟩)).set_index 5).take_ref
        ⟨7, "u32"⟩ = .error (.InvalidOwnership 5 .Ref .Owned) ∧
    (ArgError.InvalidOwnership 5 .Ref .Owned).index = 5 :=
  ⟨rfl,
    (error_carries_current_index ⟨7, "u32"⟩
        (Arg.new 0 (ArgValue.Owned ⟨⟨7, "u32"⟩, 1⟩))).2.2.2.2.1 5
      (.InvalidOwnership 5 .Ref .Owned) rfl⟩

/-- Claim C6: the generic take is equivalent to the matching specific take:
requesting an owned `T` behaves as `take_owned`, requesting `&T` as
`take_ref`, requesting `&mut T` as `take_mut`, on every cell — including
the wrong-category cells, where the errors coincide exactly. -/
theorem take_equiv_specific (t : Ty) (a : Arg) :
    a.take (.Owned t) = a.take_owned t ∧
    a.take (.Ref t) = a.take_ref t ∧
    a.take (.Mut t) = a.take_mut t :=
  ⟨rfl, rfl, rfl⟩

/-- Claim C8: the uniform read-only dereference of an `ArgValue` yields the
same underlying type-erased value the variant holds, for all three
categories. -/
theorem deref_uniform_view (v : RVal) :
    (ArgValue.Owned v).deref = v ∧ (ArgValue.Ref v).deref = v ∧
    (ArgValue.Mut v).deref = v :=
  ⟨rfl, rfl, rfl⟩

/-- Claim C9: `take_value()` returns exactly the stored `ArgValue`,
unchanged in category and payload, and (being total) never fails. -/
theorem take_value_returns_stored (a : Arg) :
    a.take_value = a.value :=
  rfl

/-- Claim C10: `set_index(i)` changes only the index field: the stored
value is unchanged and `index()` afterwards returns `i`. -/
theorem set_index_frame (a : Arg) (i : Nat) :
    (a.set_index i).value = a.value ∧ (a.set_index i).index = i :=
  ⟨rfl, rfl⟩
